import Mathlib

/-!
Shallow embedding of the deployment/versioning subsystem of the
autoapporch backend (src/src/services/deploymentService.js).

External effects (GitHub API, Vercel API, the SQL database) are modelled
explicitly: the database is part of the state, and the responses of the
external HTTP APIs are supplied by environment records, one per operation.
Every operation is a pure function from its arguments, its environment and
the current state to a result (an Except value mirroring the
`{success, ...} / {success:false, error}` objects of the source) and a new
state.  Calls to the external providers are recorded in a trace so that
invocation-order claims can be stated.

Base64 transport encoding of archived file contents is elided (it is a
bijection on contents and no claim observes it); file contents are kept as
the original strings.  The JSON code column of app_versions is stored in
parsed form (a Code value): the JSON.parse round-trip of the source always
succeeds on values that were produced by JSON.stringify.
-/

/-- One file of a generated code snapshot. -/
structure FileEntry where
  path : String
  content : String
deriving Repr, DecidableEq

/-- A code snapshot, grouped by tier, as the generator produces it
(`code.frontend.files`, `code.backend.files`). -/
structure Code where
  frontend : List FileEntry
  backend : List FileEntry
deriving Repr, DecidableEq

/-- One row of the `apps` table (the columns this subsystem touches).
Rows are keyed by app id in the state, so the id column is the key. -/
structure AppRow where
  user_id : String
  name : String
  deployment_status : String
  deployed : Bool
  deploy_url : Option String
  github_repo_url : Option String
  github_repo_name : Option String
  vercel_deployment_id : Option String
  vercel_project_name : Option String
  current_version : Option String
  suspended_at : Option Nat
  updated_at : Nat
deriving Repr, DecidableEq

/-- One row of the `app_versions` table. -/
structure AppVersionRow where
  app_id : String
  version : Int
  code : Code
  generation_prompt : String
  generation_time_ms : Nat
  tokens_used : Nat
deriving Repr, DecidableEq

/-- One row of the `logs` table; `metadata` keeps the one field of the
serialized JSON metadata object that claims observe (the error message,
the deploy url or the update description). -/
structure LogRow where
  user_id : String
  app_id : String
  log_type : String
  message : String
  metadata : String
deriving Repr, DecidableEq

/-- The state of one GitHub backup repository: its file tree (later writes
to the same path overwrite) and the tags created on it. -/
structure RepoState where
  name : String
  files : List FileEntry
  tags : List String
deriving Repr, DecidableEq

/-- Calls made to the external providers, recorded in order. -/
inductive ExtCall where
  | createRepo (name : String)
  | publish (files : List FileEntry)
  | teardown (deploymentId : String)
deriving Repr, DecidableEq

/-- The world state: the three database tables plus the GitHub-side
repository contents and the trace of external calls. -/
structure St where
  apps : String → Option AppRow
  app_versions : List AppVersionRow
  logs : List LogRow
  repos : List RepoState
  trace : List ExtCall

/-! ## JavaScript semantics helpers -/

/-- JS `a || b` for a nullable string: null, undefined and the empty
string are falsy. -/
def jsOr (o : Option String) (d : String) : String :=
  match o with
  | some s => if s = "" then d else s
  | none => d

/-- JS truthiness of a nullable string column. -/
def truthy : Option String → Bool
  | none => false
  | some s => s != ""

/-- Remove the first occurrence of a character, as JS
`String.prototype.replace` with a single-character pattern and empty
replacement does. -/
def removeFirstCharAux (c : Char) : List Char → List Char
  | [] => []
  | x :: xs => if x = c then xs else x :: removeFirstCharAux c xs

/-- JS replace of the first letter v by the empty string. -/
def jsReplaceFirstV (s : String) : String :=
  String.mk (removeFirstCharAux 'v' s.data)

/-- Split a character list at every occurrence of a separator character;
like JS `split`, the result is never empty and an empty input yields one
empty piece. -/
def splitCharList (c : Char) : List Char → List (List Char)
  | [] => [[]]
  | x :: xs =>
    let r := splitCharList c xs
    if x = c then [] :: r
    else
      match r with
      | [] => [[x]]
      | h :: t => (x :: h) :: t

/-- JS split at every dot. -/
def jsSplitDot (s : String) : List String :=
  (splitCharList '.' s.data).map String.mk

/-- JS `s.trim()`. -/
def jsTrim (s : String) : String :=
  String.mk (((s.data.dropWhile Char.isWhitespace).reverse.dropWhile Char.isWhitespace).reverse)

/-- JS `s.substring(0, n)`. -/
def jsSubstringTo (s : String) (n : Nat) : String :=
  String.mk (s.data.take n)

/-- JS `s.toLowerCase()` (ASCII letters, the only ones this code builds
identifiers from). -/
def jsToLower (s : String) : String :=
  String.mk (s.data.map Char.toLower)

/-- Path tier test used to partition fetched archive files:
`f.path.startsWith(tier)`. -/
def pathInTier (tier p : String) : Bool :=
  tier.data.isPrefixOf p.data

def digitsVal (cs : List Char) : Nat :=
  cs.foldl (fun a c => a * 10 + (c.toNat - 48)) 0

/-- The longest digit run at the front, or none when there is no digit. -/
def digitsOfList (cs : List Char) : Option Nat :=
  let ds := cs.takeWhile Char.isDigit
  if ds.isEmpty then none else some (digitsVal ds)

/-- JS `parseInt` on a possibly-undefined string: trims, accepts an
optional sign, parses the leading decimal digit run, and yields NaN
(modelled as `none`) when no digit is found or the argument is undefined.
Hexadecimal prefixes do not occur in this code base. -/
def parseIntJs : Option String → Option Int
  | none => none
  | some s =>
    match (jsTrim s).data with
    | '-' :: rest => (digitsOfList rest).map (fun n => -(n : Int))
    | '+' :: rest => (digitsOfList rest).map (fun n => (n : Int))
    | cs => (digitsOfList cs).map (fun n => (n : Int))

/-- JS array element assignment `a[1] = v` on the result of a split:
extends a one-element array to length two. A split result is never
empty, so the nil case is unreachable. -/
def setIdx1 (l : List String) (v : String) : List String :=
  match l with
  | [] => [v]
  | [a] => [a, v]
  | a :: _ :: rest => a :: v :: rest

/-- The version computation of `updateApp` (deploymentService.js lines
410-413):
the current label (defaulting to v1.0.0 when the column is falsy) has
its first letter v removed and is split at the dots; slot 1 of the parts
array is assigned parseInt of itself plus one; the new label is v
prepended to the dot-join of the parts.
Returns the new label together with the value later passed to the
app_versions INSERT as the integer version: `none` models NaN (when the
current label has no parseable minor component), in which case the join
renders the literal string NaN, exactly as JS does. -/
def computeNextVersion (current : Option String) : String × Option Int :=
  let currentVersion := jsOr current "v1.0.0"
  let versionParts := jsSplitDot (jsReplaceFirstV currentVersion)
  match parseIntJs (versionParts.get? 1) with
  | some m =>
    ("v" ++ String.intercalate "." (setIdx1 versionParts (toString (m + 1))), some (m + 1))
  | none =>
    ("v" ++ String.intercalate "." (setIdx1 versionParts "NaN"), none)

/-! ## Backup Archiver (GitHub) -/

/-- The authenticated GitHub account (process.env.GITHUB_USERNAME). -/
def ghUser : String := "autoapporch"

/-- The sanitization of the app name inside the backup repo name:
appName lowercased with every character outside a-z0-9 replaced by a
dash. -/
def sanitizeAppName (s : String) : String :=
  String.mk ((jsToLower s).data.map (fun c => if c.isLower || c.isDigit then c else '-'))

/-- Content of APP_METADATA.json (JSON.stringify of the metadata object). -/
def metadataJson (appId appName version now : String) : String :=
  "\x7b\"appId\":\"" ++ appId ++ "\",\"appName\":\"" ++ appName ++
    "\",\"version\":\"" ++ version ++ "\",\"createdAt\":\"" ++ now ++
    "\",\"platform\":\"AutoAppOrchestrator\"\x7d"

/-- `prepareFilesForBackup(code, appId, appName, version)`: every frontend
and backend file under a tier path, plus APP_METADATA.json when
appId/appName are given (the update path passes null and writes no
metadata file). Base64 encoding of contents is elided. -/
def prepareFilesForBackup (code : Code) (meta : Option (String × String))
    (version now : String) : List FileEntry :=
  code.frontend.map (fun f => { path := "frontend/" ++ f.path, content := f.content })
    ++ code.backend.map (fun f => { path := "backend/" ++ f.path, content := f.content })
    ++ (match meta with
        | some (appId, appName) =>
          [{ path := "APP_METADATA.json", content := metadataJson appId appName version now }]
        | none => [])

/-- `createOrUpdateFileContents`: overwrite the path when present,
append otherwise. -/
def putFile (files : List FileEntry) (f : FileEntry) : List FileEntry :=
  if files.any (fun g => g.path = f.path)
  then files.map (fun g => if g.path = f.path then f else g)
  else files ++ [f]

/-- Environment of `createGitHubBackup`: whether repo creation fails (the
only fatal error source of the function — per-file write failures are
caught, logged and skipped), the Date.now() suffix, the metadata
timestamp, and which individual file writes fail. -/
structure BackupEnv where
  createFails : Option String
  timestamp : String
  now : String
  fileWriteFails : String → Bool

structure BackupOk where
  repoName : String
  repoUrl : String
deriving Repr, DecidableEq

/-- `createGitHubBackup(appId, appName, code, version)` (deploymentService.js
lines 17-70): creates the private backup repository named from the
truncated app id, sanitized name and timestamp, writes every prepared
file (skipping, not aborting on, individual write failures), and returns
the repo handle; any repo-level API error is caught and returned as a
failure result. -/
def createGitHubBackup (appId appName : String) (code : Code) (version : String)
    (env : BackupEnv) (st : St) : Except String BackupOk × St :=
  match env.createFails with
  | some msg => (Except.error msg, st)
  | none =>
    let repoName :=
      "app-" ++ jsSubstringTo appId 6 ++ "-" ++ sanitizeAppName appName ++ "-" ++ env.timestamp
    let files := prepareFilesForBackup code (some (appId, appName)) version env.now
    let written := files.filter (fun f => ! env.fileWriteFails f.path)
    let repo : RepoState := { name := repoName, files := written.foldl putFile [], tags := [] }
    (Except.ok { repoName := repoName,
                 repoUrl := "https://github.com/" ++ ghUser ++ "/" ++ repoName },
     { st with repos := st.repos ++ [repo],
               trace := st.trace ++ [ExtCall.createRepo repoName] })

/-- Environment of `updateGitHubBackup`: a fatal API error (repos.get or
an uncaught octokit failure), per-file write failures (caught and
skipped) and whether tag creation fails (non-fatal). -/
structure UpdateBackupEnv where
  apiFails : Option String
  fileWriteFails : String → Bool
  tagFails : Bool

/-- The outcome of the archive-update step as a function of the
environment and the repository store: an injected API failure, a missing
repo name (the column is NULL when the app was never deployed) or an
unknown repo each produce the failure result of the source catch block. -/
def updateBackupResult (repoName : Option String) (env : UpdateBackupEnv)
    (repos : List RepoState) : Except String Unit :=
  match env.apiFails with
  | some m => Except.error m
  | none =>
    match repoName with
    | none => Except.error "Not Found"
    | some rn => if repos.any (fun r => r.name = rn) then Except.ok () else Except.error "Not Found"

/-- `updateGitHubBackup(repoName, code, version)` (deploymentService.js
lines 72-136): writes the new snapshot files into the existing repo
(overwriting by path, skipping individual failures), then creates the
version tag; tag failure is logged and ignored. -/
def updateGitHubBackup (repoName : Option String) (code : Code) (version : String)
    (env : UpdateBackupEnv) (st : St) : Except String Unit × St :=
  match updateBackupResult repoName env st.repos with
  | Except.error m => (Except.error m, st)
  | Except.ok _ =>
    let files := prepareFilesForBackup code none version ""
    let written := files.filter (fun f => ! env.fileWriteFails f.path)
    (Except.ok (),
     { st with repos := st.repos.map (fun r =>
         if some r.name = repoName then
           { r with files := written.foldl putFile r.files,
                    tags := if env.tagFails then r.tags else r.tags ++ [version] }
         else r) })

/-- `getFilesFromRepo(repoName, version)` (deploymentService.js lines
664-666): the function body is `return [];` — an unimplemented stub. -/
def getFilesFromRepo (repoName : Option String) (version : String) : List FileEntry :=
  []

/-- `getVersionCode(repoName, version)` (deploymentService.js lines
138-155): fetches the files of a version from the backup repo and
partitions them into tiers by path. Because `getFilesFromRepo` is a
stub, the filter runs over an empty list and no exception can occur. -/
def getVersionCode (repoName : Option String) (version : String) : Except String Code :=
  let files := getFilesFromRepo repoName version
  Except.ok
    { frontend := files.filter (fun f => pathInTier "frontend/" f.path),
      backend := files.filter (fun f => pathInTier "backend/" f.path) }

/-! ## Deploy Publisher (Vercel) -/

/-- One status-poll response of the Vercel deployment GET: the readyState
values the loop distinguishes, plus a network or JSON failure of the
check itself (caught inside the loop). -/
inductive PollStatus where
  | ready
  | error
  | canceled
  | building
  | fetchFail
deriving Repr, DecidableEq

def isTerminal : PollStatus → Bool
  | PollStatus.ready => true
  | PollStatus.error => true
  | PollStatus.canceled => true
  | _ => false

/-- Result of the readiness poll: the returned url, how many status GETs
were issued and how many milliseconds were spent sleeping. -/
structure WaitResult where
  url : String
  polls : Nat
  sleptMs : Nat
deriving Repr, DecidableEq

/-- One iteration of `waitForDeployment` per unit of remaining attempts,
polling attempt `i`. A READY state returns the https url at once; an
ERROR or CANCELED state makes the loop body throw, but the surrounding
try/catch of the same loop catches that throw, so — exactly like a
non-terminal state or a failed status fetch — it sleeps 5000 ms,
increments `attempts` and continues; exhausting the attempts returns the
candidate url. -/
def waitForDeploymentAux (statuses : Nat → PollStatus) (deploymentUrl : String) :
    Nat → Nat → WaitResult
  | _, 0 => { url := "https://" ++ deploymentUrl, polls := 0, sleptMs := 0 }
  | i, Nat.succ n =>
    match statuses i with
    | PollStatus.ready => { url := "https://" ++ deploymentUrl, polls := 1, sleptMs := 0 }
    | _ =>
      let r := waitForDeploymentAux statuses deploymentUrl (i + 1) n
      { url := r.url, polls := r.polls + 1, sleptMs := r.sleptMs + 5000 }

/-- `waitForDeployment(deploymentId, deploymentUrl, maxAttempts = 24)`
(deploymentService.js lines 261-296). The status responses are supplied
by the environment as a function of the attempt number. -/
def waitForDeployment (statuses : Nat → PollStatus) (deploymentUrl : String)
    (maxAttempts : Nat) : WaitResult :=
  waitForDeploymentAux statuses deploymentUrl 0 maxAttempts

/-- Environment of `deployDirectToVercel`: the response to the deployment
POST (an API error message, or a deployment id and not-yet-ready url)
and the readiness-poll status sequence, plus the Date.now() suffix of
the project name. -/
structure VercelEnv where
  submit : Except String (String × String)
  timestamp : String
  statuses : Nat → PollStatus

structure VercelOk where
  deploymentId : String
  projectName : String
  url : String
deriving Repr, DecidableEq

/-- `deployDirectToVercel(appId, appName, code, envVars)`
(deploymentService.js lines 161-233): serializes every frontend file into
the wire format, POSTs the deployment (recorded as a publish call), and
on acceptance waits for readiness with the default 24 attempts. API
errors are caught and returned as a failure result. The env-var
serialization is elided: no claim observes it. -/
def deployDirectToVercel (appId appName : String) (code : Code) (env : VercelEnv)
    (st : St) : Except String VercelOk × St :=
  let projectName := jsToLower ("app-" ++ jsSubstringTo appId 8 ++ "-" ++ env.timestamp)
  let files := code.frontend.map (fun f => { path := f.path, content := f.content : FileEntry })
  let st1 := { st with trace := st.trace ++ [ExtCall.publish files] }
  match env.submit with
  | Except.error m => (Except.error m, st1)
  | Except.ok (deploymentId, initialUrl) =>
    let w := waitForDeployment env.statuses initialUrl 24
    (Except.ok { deploymentId := deploymentId, projectName := projectName, url := w.url }, st1)

/-- `deleteVercelDeployment(deploymentId)` (deploymentService.js lines
235-259): issues the DELETE (recorded as a teardown call) and catches
any API failure, returning a failure result instead of throwing. -/
def deleteVercelDeployment (deploymentId : String) (apiOk : Bool) (st : St) :
    Except String Unit × St :=
  let st1 := { st with trace := st.trace ++ [ExtCall.teardown deploymentId] }
  if apiOk then (Except.ok (), st1) else (Except.error "Delete failed", st1)

/-! ## Database helpers -/

/-- `SELECT * FROM apps WHERE id = $1 AND user_id = $2`. -/
def getAppByUser (st : St) (appId userId : String) : Option AppRow :=
  match st.apps appId with
  | some a => if a.user_id = userId then some a else none
  | none => none

/-- `UPDATE apps SET ... WHERE id = $1` (no user filter, exactly like the
status updates of the source). -/
def updateAppRow (st : St) (appId : String) (f : AppRow → AppRow) : St :=
  { st with apps := fun i => if i = appId then (st.apps i).map f else st.apps i }

/-- `INSERT INTO logs (user_id, app_id, log_type, message, metadata)`. -/
def addLog (st : St) (userId appId logType message metadata : String) : St :=
  { st with logs := st.logs ++
      [{ user_id := userId, app_id := appId, log_type := logType,
         message := message, metadata := metadata }] }

/-- `... JOIN app_versions av ON a.id = av.app_id ... ORDER BY av.version
DESC LIMIT 1`: the highest-version row of the app, none when the app has
no versions. -/
def latestVersionRow (st : St) (appId : String) : Option AppVersionRow :=
  (st.app_versions.filter (fun v => v.app_id = appId)).foldl
    (fun acc v =>
      match acc with
      | none => some v
      | some b => if v.version > b.version then some v else some b)
    none

/-! ## Deployment Orchestrator -/

/-- Environment of one `deployApp` run: the database NOW() timestamp and
the outcomes of the two external steps. -/
structure DeployEnv where
  now : Nat
  backup : BackupEnv
  vercel : VercelEnv

/-- The success object of `deployApp`. -/
structure DeploySuccess where
  backupUrl : String
  deployUrl : String
  deploymentId : String
  version : String
deriving Repr, DecidableEq

/-- The catch block of `deployApp` (deploymentService.js lines 386-395):
set deployment_status to failed, write the error log, return the
structured failure. -/
def failDeploy (st : St) (appId userId msg : String) (now : Nat) :
    Except String DeploySuccess × St :=
  let st1 := updateAppRow st appId
    (fun a => { a with deployment_status := "failed", updated_at := now })
  (Except.error msg, addLog st1 userId appId "error" "Error en deploy" msg)

/-- `deployApp(appId, userId)` (deploymentService.js lines 302-396).
The initial query joins apps with app_versions, so a missing app, a user
mismatch or an app with zero versions all throw App not found. The
stored `current_version = 1` SQL parameter lands in the text column as
the string 1 (the same column receives labels such as v1.1.0 from
updateApp and rollbackApp). -/
def deployApp (appId userId : String) (env : DeployEnv) (st : St) :
    Except String DeploySuccess × St :=
  match getAppByUser st appId userId, latestVersionRow st appId with
  | some app, some ver =>
    let code := ver.code
    let st1 := updateAppRow st appId
      (fun a => { a with deployment_status := "deploying", updated_at := env.now })
    match createGitHubBackup appId app.name code "1" env.backup st1 with
    | (Except.error e, st2) =>
      failDeploy st2 appId userId ("GitHub backup failed: " ++ e) env.now
    | (Except.ok backup, st2) =>
      match deployDirectToVercel appId app.name code env.vercel st2 with
      | (Except.error e, st3) =>
        failDeploy st3 appId userId ("Vercel deployment failed: " ++ e) env.now
      | (Except.ok dep, st3) =>
        let st4 := updateAppRow st3 appId (fun a =>
          { a with deployed := true,
                   deploy_url := some dep.url,
                   deployment_status := "deployed",
                   github_repo_url := some backup.repoUrl,
                   vercel_deployment_id := some dep.deploymentId,
                   vercel_project_name := some dep.projectName,
                   github_repo_name := some backup.repoName,
                   current_version := some "1",
                   updated_at := env.now })
        let st5 := addLog st4 userId appId "success" "App desplegada - v1.0.0" dep.url
        (Except.ok { backupUrl := backup.repoUrl, deployUrl := dep.url,
                     deploymentId := dep.deploymentId, version := "v1.0.0" }, st5)
  | _, _ => failDeploy st appId userId "App not found" env.now

/-- Environment of one `updateApp` run. -/
structure UpdateEnv where
  now : Nat
  backup : UpdateBackupEnv
  vercel : VercelEnv

/-- The success object of `updateApp`. -/
structure UpdateSuccess where
  version : String
  deployUrl : String
  deploymentId : String
deriving Repr, DecidableEq

/-- The catch block of `updateApp` (deploymentService.js lines 456-465). -/
def failUpdate (st : St) (appId userId msg : String) (now : Nat) :
    Except String UpdateSuccess × St :=
  let st1 := updateAppRow st appId
    (fun a => { a with deployment_status := "failed", updated_at := now })
  (Except.error msg, addLog st1 userId appId "error" "Error en actualización" msg)

/-- `updateApp(appId, userId, newCode, updateDescription)`
(deploymentService.js lines 402-466): computes the next version label,
sets status updating, updates the GitHub backup, inserts the new
app_versions row (when the computed integer version is NaN the database
rejects the INSERT and control reaches the catch block), publishes to
Vercel, and on success updates the app row and logs. Note that on a
publish failure the just-inserted version row is not removed. -/
def updateApp (appId userId : String) (newCode : Code) (updateDescription : String)
    (env : UpdateEnv) (st : St) : Except String UpdateSuccess × St :=
  match getAppByUser st appId userId with
  | none => failUpdate st appId userId "App not found" env.now
  | some app =>
    let nv := computeNextVersion app.current_version
    let newVersion := nv.1
    let st1 := updateAppRow st appId
      (fun a => { a with deployment_status := "updating", updated_at := env.now })
    match updateGitHubBackup app.github_repo_name newCode newVersion env.backup st1 with
    | (Except.error e, st2) =>
      failUpdate st2 appId userId ("GitHub update failed: " ++ e) env.now
    | (Except.ok _, st2) =>
      match nv.2 with
      | none =>
        failUpdate st2 appId userId "invalid input syntax for type integer" env.now
      | some intVersion =>
        let st3 := { st2 with app_versions := st2.app_versions ++
          [{ app_id := appId, version := intVersion, code := newCode,
             generation_prompt := updateDescription,
             generation_time_ms := 0, tokens_used := 0 }] }
        match deployDirectToVercel appId app.name newCode env.vercel st3 with
        | (Except.error e, st4) =>
          failUpdate st4 appId userId ("Vercel deployment failed: " ++ e) env.now
        | (Except.ok dep, st4) =>
          let st5 := updateAppRow st4 appId (fun a =>
            { a with deploy_url := some dep.url,
                     vercel_deployment_id := some dep.deploymentId,
                     current_version := some newVersion,
                     deployment_status := "deployed",
                     updated_at := env.now })
          let st6 := addLog st5 userId appId "success"
            ("App actualizada a " ++ newVersion) updateDescription
          (Except.ok { version := newVersion, deployUrl := dep.url,
                       deploymentId := dep.deploymentId }, st6)

/-- Environment of one `rollbackApp` run. -/
structure RollbackEnv where
  now : Nat
  vercel : VercelEnv

/-- The success object of `rollbackApp`. -/
structure RollbackSuccess where
  version : String
  deployUrl : String
deriving Repr, DecidableEq

/-- The catch block of `rollbackApp` (deploymentService.js lines 509-518). -/
def failRollback (st : St) (appId userId msg : String) (now : Nat) :
    Except String RollbackSuccess × St :=
  let st1 := updateAppRow st appId
    (fun a => { a with deployment_status := "failed", updated_at := now })
  (Except.error msg, addLog st1 userId appId "error" "Error en rollback" msg)

/-- `rollbackApp(appId, userId, targetVersion)` (deploymentService.js
lines 472-519): sets status rolling_back, fetches the target version
code from the backup repo, republishes it, and on success points
current_version at the target. No app_versions row is created or
deleted. -/
def rollbackApp (appId userId targetVersion : String) (env : RollbackEnv) (st : St) :
    Except String RollbackSuccess × St :=
  match getAppByUser st appId userId with
  | none => failRollback st appId userId "App not found" env.now
  | some app =>
    let st1 := updateAppRow st appId
      (fun a => { a with deployment_status := "rolling_back", updated_at := env.now })
    match getVersionCode app.github_repo_name targetVersion with
    | Except.error e =>
      failRollback st1 appId userId ("Failed to get version code: " ++ e) env.now
    | Except.ok code =>
      match deployDirectToVercel appId app.name code env.vercel st1 with
      | (Except.error e, st2) =>
        failRollback st2 appId userId ("Vercel deployment failed: " ++ e) env.now
      | (Except.ok dep, st2) =>
        let st3 := updateAppRow st2 appId (fun a =>
          { a with deploy_url := some dep.url,
                   vercel_deployment_id := some dep.deploymentId,
                   current_version := some targetVersion,
                   deployment_status := "deployed",
                   updated_at := env.now })
        let st4 := addLog st3 userId appId "success"
          ("Rollback a " ++ targetVersion) dep.url
        (Except.ok { version := targetVersion, deployUrl := dep.url }, st4)

/-- Environment of one `suspendApp` run: NOW() and whether the Vercel
DELETE succeeds. -/
structure SuspendEnv where
  now : Nat
  deleteOk : Bool

/-- The success object of `suspendApp`. -/
structure SuspendSuccess where
  message : String
deriving Repr, DecidableEq

/-- `suspendApp(appId, userId, reason)` (deploymentService.js lines
525-557): when the app row carries a (truthy) vercel_deployment_id the
hosting deployment is torn down, with the result ignored
(`deleteVercelDeployment` catches its own errors); then the row is set
to suspended with suspended_at = NOW() and a warning log is written. The
catch block only returns the failure object: it writes no log and
changes no status. -/
def suspendApp (appId userId reason : String) (env : SuspendEnv) (st : St) :
    Except String SuspendSuccess × St :=
  match getAppByUser st appId userId with
  | none => (Except.error "App not found", st)
  | some app =>
    let st1 :=
      if truthy app.vercel_deployment_id then
        (deleteVercelDeployment (app.vercel_deployment_id.getD "") env.deleteOk st).2
      else st
    let st2 := updateAppRow st1 appId (fun a =>
      { a with deployment_status := "suspended",
               suspended_at := some env.now, updated_at := env.now })
    (Except.ok { message := "App suspendida" },
     addLog st2 userId appId "warning" "App suspendida" reason)

/-- Environment of one `reactivateApp` run. -/
structure ReactivateEnv where
  now : Nat
  vercel : VercelEnv

/-- The success object of `reactivateApp`. -/
structure ReactivateSuccess where
  deployUrl : String
deriving Repr, DecidableEq

/-- `reactivateApp(appId, userId)` (deploymentService.js lines 563-614):
LEFT JOINs the latest app_versions code (a missing app throws App not
found, an app without versions throws No code found for reactivation),
republishes it, and on success sets status deployed, clears
suspended_at and logs. The catch block only returns the failure object:
no log is written, no status is changed. -/
def reactivateApp (appId userId : String) (env : ReactivateEnv) (st : St) :
    Except String ReactivateSuccess × St :=
  match getAppByUser st appId userId with
  | none => (Except.error "App not found", st)
  | some app =>
    match latestVersionRow st appId with
    | none => (Except.error "No code found for reactivation", st)
    | some ver =>
      match deployDirectToVercel appId app.name ver.code env.vercel st with
      | (Except.error e, st1) => (Except.error ("Vercel deployment failed: " ++ e), st1)
      | (Except.ok dep, st1) =>
        let st2 := updateAppRow st1 appId (fun a =>
          { a with deploy_url := some dep.url,
                   vercel_deployment_id := some dep.deploymentId,
                   deployment_status := "deployed",
                   suspended_at := none, updated_at := env.now })
        (Except.ok { deployUrl := dep.url },
         addLog st2 userId appId "success" "App reactivada" dep.url)

/-! ## Concrete scenario constants -/

def code1 : Code :=
  { frontend := [{ path := "index.html", content := "<h1>v1</h1>" }], backend := [] }

def code2 : Code :=
  { frontend := [{ path := "index.html", content := "<h1>v2</h1>" }], backend := [] }

/-- An app as the generator creates it: never deployed. -/
def appRow0 : AppRow :=
  { user_id := "user1", name := "My App", deployment_status := "none", deployed := false,
    deploy_url := none, github_repo_url := none, github_repo_name := none,
    vercel_deployment_id := none, vercel_project_name := none, current_version := none,
    suspended_at := none, updated_at := 0 }

/-- The version row the generator inserts at creation time (version 1). -/
def ver1 : AppVersionRow :=
  { app_id := "app001", version := 1, code := code1, generation_prompt := "initial",
    generation_time_ms := 0, tokens_used := 0 }

/-- Initial state: one freshly generated app with its single version. -/
def st0 : St :=
  { apps := fun i => if i = "app001" then some appRow0 else none,
    app_versions := [ver1], logs := [], repos := [], trace := [] }

def envB : BackupEnv :=
  { createFails := none, timestamp := "123456", now := "t0", fileWriteFails := fun _ => false }

def envV : VercelEnv :=
  { submit := Except.ok ("dep-1", "myapp.vercel.app"), timestamp := "654321",
    statuses := fun _ => PollStatus.ready }

def envOk : DeployEnv := { now := 100, backup := envB, vercel := envV }

/-- The state right after the successful initial deploy of st0. -/
def stAfterDeploy : St := (deployApp "app001" "user1" envOk st0).2

/-! ## Helper lemmas -/

theorem getAppByUser_apps_eq {st : St} {i u : String} {a : AppRow}
    (h : getAppByUser st i u = some a) : st.apps i = some a := by
  unfold getAppByUser at h
  rcases hs : st.apps i with _ | b
  · rw [hs] at h; cases h
  · rw [hs] at h
    by_cases hu : b.user_id = u
    · simp only [hu, if_true] at h
      exact h
    · simp [hu] at h

theorem updateAppRow_apps_self (st : St) (i : String) (f : AppRow → AppRow) :
    (updateAppRow st i f).apps i = (st.apps i).map f := by
  simp [updateAppRow]

theorem updateAppRow_logs (st : St) (i : String) (f : AppRow → AppRow) :
    (updateAppRow st i f).logs = st.logs := rfl

theorem updateAppRow_repos (st : St) (i : String) (f : AppRow → AppRow) :
    (updateAppRow st i f).repos = st.repos := rfl

theorem updateAppRow_trace (st : St) (i : String) (f : AppRow → AppRow) :
    (updateAppRow st i f).trace = st.trace := rfl

theorem addLog_apps (st : St) (u i t m d : String) :
    (addLog st u i t m d).apps = st.apps := rfl

theorem addLog_trace (st : St) (u i t m d : String) :
    (addLog st u i t m d).trace = st.trace := rfl

theorem addLog_logs (st : St) (u i t m d : String) :
    (addLog st u i t m d).logs = st.logs ++
      [{ user_id := u, app_id := i, log_type := t, message := m, metadata := d }] := rfl

theorem createGitHubBackup_apps (appId appName : String) (code : Code) (version : String)
    (env : BackupEnv) (st : St) :
    ((createGitHubBackup appId appName code version env st).2).apps = st.apps := by
  unfold createGitHubBackup
  rcases h : env.createFails with _ | m <;> simp [h]

theorem createGitHubBackup_logs (appId appName : String) (code : Code) (version : String)
    (env : BackupEnv) (st : St) :
    ((createGitHubBackup appId appName code version env st).2).logs = st.logs := by
  unfold createGitHubBackup
  rcases h : env.createFails with _ | m <;> simp [h]

theorem deployDirectToVercel_state (appId appName : String) (code : Code) (env : VercelEnv)
    (st : St) :
    (deployDirectToVercel appId appName code env st).2 =
      { st with trace := st.trace ++
          [ExtCall.publish (code.frontend.map
            (fun f => { path := f.path, content := f.content }))] } := by
  unfold deployDirectToVercel
  rcases h : env.submit with m | ⟨d, u⟩ <;> simp [h]

theorem deleteVercelDeployment_state (deploymentId : String) (apiOk : Bool) (st : St) :
    (deleteVercelDeployment deploymentId apiOk st).2 =
      { st with trace := st.trace ++ [ExtCall.teardown deploymentId] } := by
  unfold deleteVercelDeployment
  cases apiOk <;> rfl

theorem waitForDeploymentAux_url (statuses : Nat → PollStatus) (u : String) :
    ∀ (n i : Nat), (waitForDeploymentAux statuses u i n).url = "https://" ++ u := by
  intro n
  induction n with
  | zero => intro i; rfl
  | succ k ih =>
    intro i
    unfold waitForDeploymentAux
    rcases statuses i with _ | _ | _ | _ | _ <;> simp [ih]

theorem https_ne_empty (s : String) : ("https://" ++ s) ≠ "" := by
  intro h
  have h2 := congrArg String.length h
  simp [String.length_append] at h2
  exact absurd h2.1 (by decide)

theorem deployDirectToVercel_ok_url {appId appName : String} {code : Code} {env : VercelEnv}
    {st st2 : St} {dep : VercelOk}
    (h : deployDirectToVercel appId appName code env st = (Except.ok dep, st2)) :
    ∃ u, dep.url = "https://" ++ u := by
  unfold deployDirectToVercel at h
  rcases he : env.submit with m | ⟨d, u⟩
  · rw [he] at h
    exact absurd (congrArg Prod.fst h) (by simp)
  · rw [he] at h
    have h1 := congrArg Prod.fst h
    simp only [Except.ok.injEq] at h1
    refine ⟨u, ?_⟩
    rw [← h1]
    exact waitForDeploymentAux_url env.statuses u 24 0

/-- C1: for every app and user, if deployApp returns a success result then
the App row afterwards has deployment_status deployed, current_version 1
(the SQL parameter 1 as stored in the text column) and a non-empty
deploy_url. -/
theorem deployApp_success_postcondition (appId userId : String) (env : DeployEnv) (st : St)
    (res : DeploySuccess) (h : (deployApp appId userId env st).1 = Except.ok res) :
    ∃ app2, ((deployApp appId userId env st).2).apps appId = some app2 ∧
      app2.deployment_status = "deployed" ∧
      app2.current_version = some "1" ∧
      ∃ u, app2.deploy_url = some u ∧ u ≠ "" := by
  unfold deployApp at h ⊢
  split at h
  case _ app ver hg hv =>
    dsimp only at h ⊢
    split at h
    case _ e st2 hb =>
      simp [failDeploy] at h
    case _ backup st2 hb =>
      split at h
      case _ e st3 hvc =>
        simp [failDeploy] at h
      case _ dep st3 hvc =>
        obtain ⟨u, hu⟩ := deployDirectToVercel_ok_url hvc
        have h3 : st3.apps appId = some
            { app with deployment_status := "deploying", updated_at := env.now } := by
          have h2 := congrArg St.apps (congrArg Prod.snd hvc)
          rw [deployDirectToVercel_state] at h2
          have h4 := congrArg St.apps (congrArg Prod.snd hb)
          rw [createGitHubBackup_apps] at h4
          have h5 : st3.apps = st2.apps := h2.symm
          rw [h5, ← h4, updateAppRow_apps_self, getAppByUser_apps_eq hg]
          rfl
        refine ⟨{ app with deployment_status := "deployed", deployed := true, deploy_url := some dep.url, github_repo_url := some backup.repoUrl, github_repo_name := some backup.repoName, vercel_deployment_id := some dep.deploymentId, vercel_project_name := some dep.projectName, current_version := some "1", updated_at := env.now }, ?_, rfl, rfl, ?_⟩
        · show (addLog _ userId appId "success" "App desplegada - v1.0.0" dep.url).apps appId
            = some _
          rw [addLog_apps, updateAppRow_apps_self, h3]
          rfl
        · exact ⟨dep.url, rfl, by rw [hu]; exact https_ne_empty u⟩
  case _ h1 h2 =>
    simp [failDeploy] at h

theorem failDeploy_fst (st : St) (a u m : String) (n : Nat) :
    (failDeploy st a u m n).1 = Except.error m := rfl

theorem failDeploy_trace (st : St) (a u m : String) (n : Nat) :
    (failDeploy st a u m n).2.trace = st.trace := rfl

theorem failDeploy_logs (st : St) (a u m : String) (n : Nat) :
    (failDeploy st a u m n).2.logs = st.logs ++
      [{ user_id := u, app_id := a, log_type := "error",
         message := "Error en deploy", metadata := m }] := rfl

theorem failUpdate_trace (st : St) (a u m : String) (n : Nat) :
    (failUpdate st a u m n).2.trace = st.trace := rfl

theorem failRollback_trace (st : St) (a u m : String) (n : Nat) :
    (failRollback st a u m n).2.trace = st.trace := rfl

/-- C1 witness: a concrete successful deploy run. -/
theorem deployApp_success_postcondition_witness :
    ∃ app2, ((deployApp "app001" "user1" envOk st0).2).apps "app001" = some app2 ∧
      app2.deployment_status = "deployed" ∧
      app2.current_version = some "1" ∧
      ∃ u, app2.deploy_url = some u ∧ u ≠ "" :=
  deployApp_success_postcondition "app001" "user1" envOk st0
    { backupUrl := "https://github.com/autoapporch/app-app001-my-app-123456",
      deployUrl := "https://myapp.vercel.app",
      deploymentId := "dep-1", version := "v1.0.0" }
    (by rfl)

def isPublishCall : ExtCall → Bool
  | ExtCall.publish _ => true
  | _ => false

def publishCount (tr : List ExtCall) : Nat :=
  (tr.filter isPublishCall).length

/-- C2: within one orchestrator operation (deployApp or updateApp), if the
archive step returns failure, the publisher is never invoked: the number
of publish calls in the trace is unchanged. -/
theorem archive_failure_blocks_publish (appId userId : String) (st : St) :
    (∀ (env : DeployEnv) (m : String), env.backup.createFails = some m →
      publishCount ((deployApp appId userId env st).2.trace) = publishCount st.trace)
  ∧ (∀ (env : UpdateEnv) (newCode : Code) (d : String) (app : AppRow) (m : String),
      getAppByUser st appId userId = some app →
      updateBackupResult app.github_repo_name env.backup st.repos = Except.error m →
      publishCount ((updateApp appId userId newCode d env st).2.trace) = publishCount st.trace) := by
  constructor
  · intro env m hm
    unfold deployApp
    split
    case _ app ver hg hv =>
      dsimp only
      simp only [createGitHubBackup, hm]
      rw [failDeploy_trace, updateAppRow_trace]
    case _ h1 h2 =>
      rw [failDeploy_trace]
  · intro env newCode d app m hg hb
    unfold updateApp
    split
    case _ hgn =>
      rw [failUpdate_trace]
    case _ app2 hg2 =>
      have happ : app2 = app := by
        have h3 := hg2.symm.trans hg
        injection h3
      subst happ
      dsimp only
      simp only [updateGitHubBackup, updateAppRow_repos, hb]
      rw [failUpdate_trace, updateAppRow_trace]

def envDeployFail : DeployEnv :=
  { now := 100,
    backup := { createFails := some "boom", timestamp := "123456", now := "t0",
                fileWriteFails := fun _ => false },
    vercel := envV }

def envUpdateFail : UpdateEnv :=
  { now := 100,
    backup := { apiFails := some "boom", fileWriteFails := fun _ => false, tagFails := false },
    vercel := envV }

/-- C2 witness: concrete runs with a failing archive step leave the
publish count unchanged. -/
theorem archive_failure_blocks_publish_witness :
    publishCount ((deployApp "app001" "user1" envDeployFail st0).2.trace) =
      publishCount st0.trace
  ∧ publishCount ((updateApp "app001" "user1" code2 "d" envUpdateFail st0).2.trace) =
      publishCount st0.trace :=
  ⟨(archive_failure_blocks_publish "app001" "user1" st0).1 envDeployFail "boom" rfl,
   (archive_failure_blocks_publish "app001" "user1" st0).2 envUpdateFail code2 "d" appRow0
     "boom" rfl rfl⟩

def envRB : RollbackEnv := { now := 300, vercel := envV }

/-- C3: the claim that fetchVersion returns the archived file tree fails
on the code: getFilesFromRepo is a stub returning the empty list, so
getVersionCode always returns an empty frontend/backend partition, and a
rollback publishes empty code even though the archive demonstrably holds
the version files written by createGitHubBackup; the rollback
nevertheless reports success. -/
theorem fetchVersion_stub_returns_empty :
    (∀ (repoName : Option String) (version : String),
       getVersionCode repoName version = Except.ok { frontend := [], backend := [] })
  ∧ (stAfterDeploy.repos.map (fun r => r.files.map (fun f => f.path)) =
       [["frontend/index.html", "APP_METADATA.json"]])
  ∧ ((rollbackApp "app001" "user1" "v1.0" envRB stAfterDeploy).2.trace =
       stAfterDeploy.trace ++ [ExtCall.publish []])
  ∧ ((rollbackApp "app001" "user1" "v1.0" envRB stAfterDeploy).1 =
       Except.ok { version := "v1.0", deployUrl := "https://myapp.vercel.app" }) := by
  refine ⟨fun repoName version => rfl, by decide, by rfl, by rfl⟩

def envErrPoll : DeployEnv :=
  { now := 100, backup := envB,
    vercel := { submit := Except.ok ("dep-1", "myapp.vercel.app"), timestamp := "654321",
                statuses := fun _ => PollStatus.error } }

/-- C4: the claim that a terminal ERROR or CANCELED poll state raises a
deployment-failed condition immediately fails on the code: the throw is
caught by the try/catch of the same polling loop, so the loop keeps
polling through all 24 attempts (sleeping 5 s after each), returns the
candidate url as if successful, and the enclosing deployApp marks the
app deployed, not failed. -/
theorem waitForDeployment_swallows_terminal_error :
    waitForDeployment (fun _ => PollStatus.error) "x.vercel.app" 24 =
      { url := "https://x.vercel.app", polls := 24, sleptMs := 120000 }
  ∧ (deployApp "app001" "user1" envErrPoll st0).1 = Except.ok
      { backupUrl := "https://github.com/autoapporch/app-app001-my-app-123456",
        deployUrl := "https://myapp.vercel.app",
        deploymentId := "dep-1", version := "v1.0.0" }
  ∧ (((deployApp "app001" "user1" envErrPoll st0).2).apps "app001").map
      AppRow.deployment_status = some "deployed" := by
  refine ⟨by decide, by rfl, by rfl⟩

def envU : UpdateEnv :=
  { now := 200,
    backup := { apiFails := none, fileWriteFails := fun _ => false, tagFails := false },
    vercel := envV }

/-- C5: the claim that updateApp always increments the minor component by
one and inserts a row with version N+1 fails on the code for the state
deployApp itself produces: deployApp reports label v1.0.0 but stores
current_version = 1, so the first update parses the label 1, gets minor
NaN, builds the label v1.NaN, and the INSERT of the NaN integer version
is rejected by the database — updateApp returns a failure, inserts no
row, and sets the status to failed. -/
theorem updateApp_version_label_bug :
    (deployApp "app001" "user1" envOk st0).1 = Except.ok
      { backupUrl := "https://github.com/autoapporch/app-app001-my-app-123456",
        deployUrl := "https://myapp.vercel.app",
        deploymentId := "dep-1", version := "v1.0.0" }
  ∧ (stAfterDeploy.apps "app001").map AppRow.current_version = some (some "1")
  ∧ computeNextVersion (some "1") = ("v1.NaN", none)
  ∧ (updateApp "app001" "user1" code2 "tweak" envU stAfterDeploy).1 =
      Except.error "invalid input syntax for type integer"
  ∧ (updateApp "app001" "user1" code2 "tweak" envU stAfterDeploy).2.app_versions =
      stAfterDeploy.app_versions
  ∧ ((updateApp "app001" "user1" code2 "tweak" envU stAfterDeploy).2.apps "app001").map
      AppRow.deployment_status = some "failed" := by
  refine ⟨by rfl, by rfl, by decide, by rfl, by rfl, by rfl⟩

def stNoVersions : St := { st0 with app_versions := [] }

/-- C6 counterexample: deployApp on an app with zero AppVersion rows does
return a failure, but it mutates the App row: deployment_status moves
from its initial value none to failed, contradicting the claimed
no-state-mutation. -/
theorem deployApp_no_versions_mutates_status :
    (deployApp "app001" "user1" envOk stNoVersions).1 = Except.error "App not found"
  ∧ (stNoVersions.apps "app001").map AppRow.deployment_status = some "none"
  ∧ (((deployApp "app001" "user1" envOk stNoVersions).2).apps "app001").map
      AppRow.deployment_status = some "failed"
  ∧ ¬ ((((deployApp "app001" "user1" envOk stNoVersions).2).apps "app001").map
      AppRow.deployment_status = some "none") := by
  refine ⟨by rfl, by rfl, by rfl, by decide⟩

/-- C6 amended: deployApp on an app with zero AppVersion rows returns
the structured failure App not found, but it also sets the deployment
status of the App row to failed and appends an error log entry. -/
theorem deployApp_no_versions_failure (appId userId : String) (env : DeployEnv) (st : St)
    (app : AppRow) (happ : st.apps appId = some app)
    (hnover : latestVersionRow st appId = none) :
    (deployApp appId userId env st).1 = Except.error "App not found"
  ∧ (((deployApp appId userId env st).2).apps appId).map AppRow.deployment_status =
      some "failed"
  ∧ ((deployApp appId userId env st).2).logs = st.logs ++
      [{ user_id := userId, app_id := appId, log_type := "error",
         message := "Error en deploy", metadata := "App not found" }] := by
  unfold deployApp
  split
  case _ app2 ver hg hv =>
    rw [hnover] at hv
    cases hv
  case _ hcontra =>
    refine ⟨rfl, ?_, ?_⟩
    · simp only [failDeploy]
      rw [addLog_apps, updateAppRow_apps_self, happ]
      rfl
    · exact failDeploy_logs st appId userId "App not found" env.now

/-- C6 amended witness: the concrete zero-version state. -/
theorem deployApp_no_versions_failure_witness :
    (deployApp "app001" "user1" envOk stNoVersions).1 = Except.error "App not found"
  ∧ (((deployApp "app001" "user1" envOk stNoVersions).2).apps "app001").map
      AppRow.deployment_status = some "failed"
  ∧ ((deployApp "app001" "user1" envOk stNoVersions).2).logs = stNoVersions.logs ++
      [{ user_id := "user1", app_id := "app001", log_type := "error",
         message := "Error en deploy", metadata := "App not found" }] :=
  deployApp_no_versions_failure "app001" "user1" envOk stNoVersions appRow0 rfl rfl

theorem failUpdate_logs (st : St) (a u m : String) (n : Nat) :
    (failUpdate st a u m n).2.logs = st.logs ++
      [{ user_id := u, app_id := a, log_type := "error",
         message := "Error en actualización", metadata := m }] := rfl

theorem failRollback_logs (st : St) (a u m : String) (n : Nat) :
    (failRollback st a u m n).2.logs = st.logs ++
      [{ user_id := u, app_id := a, log_type := "error",
         message := "Error en rollback", metadata := m }] := rfl

def appRowDep : AppRow :=
  { user_id := "user1", name := "My App", deployment_status := "deployed", deployed := true,
    deploy_url := some "https://myapp.vercel.app",
    github_repo_url := some "https://github.com/autoapporch/app-app001-my-app-123456",
    github_repo_name := some "app-app001-my-app-123456",
    vercel_deployment_id := some "dep-1",
    vercel_project_name := some "app-app001-654321",
    current_version := some "1", suspended_at := none, updated_at := 100 }

def appRowSusp : AppRow :=
  { appRowDep with deployment_status := "suspended", suspended_at := some 200 }

/-- A suspended app that still has its version history. -/
def stSusp : St :=
  { apps := fun i => if i = "app001" then some appRowSusp else none,
    app_versions := [ver1], logs := [], repos := [], trace := [] }

def envReactFail : ReactivateEnv :=
  { now := 300,
    vercel := { submit := Except.error "quota", timestamp := "777777",
                statuses := fun _ => PollStatus.ready } }

/-- C7 counterexample: reactivateApp on a publish failure returns the
structured error but writes no log entry and leaves the app in its prior
suspended status, not failed — contradicting the claimed uniform
catch-log-set-failed policy. -/
theorem reactivateApp_failure_no_log_no_failed :
    (reactivateApp "app001" "user1" envReactFail stSusp).1 =
      Except.error "Vercel deployment failed: quota"
  ∧ ((reactivateApp "app001" "user1" envReactFail stSusp).2.apps "app001").map
      AppRow.deployment_status = some "suspended"
  ∧ ¬ (((reactivateApp "app001" "user1" envReactFail stSusp).2.apps "app001").map
      AppRow.deployment_status = some "failed")
  ∧ (reactivateApp "app001" "user1" envReactFail stSusp).2.logs = stSusp.logs := by
  refine ⟨by rfl, by rfl, by decide, by rfl⟩

/-- C7 amended: deployApp, updateApp and rollbackApp catch internal
errors, write a DeploymentLog entry carrying the error message, set the
status to failed and return the structured failure; suspendApp and
reactivateApp catch errors and return the structured failure but write
no log entry and leave deployment_status unchanged (in particular a
failed reactivation leaves a suspended app suspended, not failed). -/
theorem orchestrator_error_propagation :
    (∀ (appId userId : String) (env : DeployEnv) (st : St) (app : AppRow)
       (ver : AppVersionRow) (m : String),
       getAppByUser st appId userId = some app → latestVersionRow st appId = some ver →
       env.backup.createFails = some m →
       (deployApp appId userId env st).1 = Except.error ("GitHub backup failed: " ++ m)
       ∧ (((deployApp appId userId env st).2).apps appId).map AppRow.deployment_status =
           some "failed"
       ∧ ((deployApp appId userId env st).2).logs = st.logs ++
           [{ user_id := userId, app_id := appId, log_type := "error",
              message := "Error en deploy", metadata := "GitHub backup failed: " ++ m }])
  ∧ (∀ (appId userId : String) (newCode : Code) (d : String) (env : UpdateEnv) (st : St)
       (app : AppRow) (m : String),
       getAppByUser st appId userId = some app → env.backup.apiFails = some m →
       (updateApp appId userId newCode d env st).1 =
         Except.error ("GitHub update failed: " ++ m)
       ∧ (((updateApp appId userId newCode d env st).2).apps appId).map
           AppRow.deployment_status = some "failed"
       ∧ ((updateApp appId userId newCode d env st).2).logs = st.logs ++
           [{ user_id := userId, app_id := appId, log_type := "error",
              message := "Error en actualización",
              metadata := "GitHub update failed: " ++ m }])
  ∧ (∀ (appId userId targetVersion : String) (env : RollbackEnv) (st : St) (app : AppRow)
       (m : String),
       getAppByUser st appId userId = some app → env.vercel.submit = Except.error m →
       (rollbackApp appId userId targetVersion env st).1 =
         Except.error ("Vercel deployment failed: " ++ m)
       ∧ (((rollbackApp appId userId targetVersion env st).2).apps appId).map
           AppRow.deployment_status = some "failed"
       ∧ ((rollbackApp appId userId targetVersion env st).2).logs = st.logs ++
           [{ user_id := userId, app_id := appId, log_type := "error",
              message := "Error en rollback",
              metadata := "Vercel deployment failed: " ++ m }])
  ∧ (∀ (appId userId reason : String) (env : SuspendEnv) (st : St),
       getAppByUser st appId userId = none →
       (suspendApp appId userId reason env st).1 = Except.error "App not found"
       ∧ (suspendApp appId userId reason env st).2 = st)
  ∧ (∀ (appId userId : String) (env : ReactivateEnv) (st : St) (app : AppRow)
       (ver : AppVersionRow) (m : String),
       getAppByUser st appId userId = some app → latestVersionRow st appId = some ver →
       env.vercel.submit = Except.error m →
       (reactivateApp appId userId env st).1 =
         Except.error ("Vercel deployment failed: " ++ m)
       ∧ ((reactivateApp appId userId env st).2).apps appId = st.apps appId
       ∧ ((reactivateApp appId userId env st).2).logs = st.logs) := by
  refine ⟨?_, ?_, ?_, ?_, ?_⟩
  · intro appId userId env st app ver m hg hv hm
    unfold deployApp
    split
    case _ app2 ver2 hg2 hv2 =>
      dsimp only
      simp only [createGitHubBackup, hm]
      refine ⟨rfl, ?_, ?_⟩
      · simp only [failDeploy]
        rw [addLog_apps, updateAppRow_apps_self, updateAppRow_apps_self,
            getAppByUser_apps_eq hg2]
        rfl
      · rw [failDeploy_logs, updateAppRow_logs]
    case _ hcontra =>
      exact (hcontra app ver hg hv).elim
  · intro appId userId newCode d env st app m hg hm
    unfold updateApp
    split
    case _ hgn =>
      rw [hg] at hgn
      cases hgn
    case _ app2 hg2 =>
      dsimp only
      simp only [updateGitHubBackup, updateBackupResult, hm]
      refine ⟨rfl, ?_, ?_⟩
      · simp only [failUpdate]
        rw [addLog_apps, updateAppRow_apps_self, updateAppRow_apps_self,
            getAppByUser_apps_eq hg2]
        rfl
      · rw [failUpdate_logs, updateAppRow_logs]
  · intro appId userId targetVersion env st app m hg hm
    unfold rollbackApp
    split
    case _ hgn =>
      rw [hg] at hgn
      cases hgn
    case _ app2 hg2 =>
      dsimp only
      simp only [getVersionCode, getFilesFromRepo, deployDirectToVercel, hm]
      refine ⟨rfl, ?_, ?_⟩
      · simp only [failRollback]
        rw [addLog_apps, updateAppRow_apps_self, updateAppRow_apps_self,
            getAppByUser_apps_eq hg2]
        rfl
      · rw [failRollback_logs, updateAppRow_logs]
  · intro appId userId reason env st hg
    unfold suspendApp
    split
    case _ hgn =>
      exact ⟨rfl, rfl⟩
    case _ app2 hg2 =>
      rw [hg] at hg2
      cases hg2
  · intro appId userId env st app ver m hg hv hm
    unfold reactivateApp
    split
    case _ hgn =>
      rw [hg] at hgn
      cases hgn
    case _ app2 hg2 =>
      split
      case _ hvn =>
        rw [hv] at hvn
        cases hvn
      case _ ver2 hv2 =>
        simp only [deployDirectToVercel, hm]
        exact ⟨trivial, trivial, trivial⟩

def envRollFail : RollbackEnv :=
  { now := 100,
    vercel := { submit := Except.error "boom", timestamp := "111111",
                statuses := fun _ => PollStatus.ready } }

/-- C7 amended witness: concrete failing runs of all five operations. -/
theorem orchestrator_error_propagation_witness :
    ((deployApp "app001" "user1" envDeployFail st0).1 =
        Except.error ("GitHub backup failed: " ++ "boom")
     ∧ (((deployApp "app001" "user1" envDeployFail st0).2).apps "app001").map
         AppRow.deployment_status = some "failed"
     ∧ ((deployApp "app001" "user1" envDeployFail st0).2).logs = st0.logs ++
         [{ user_id := "user1", app_id := "app001", log_type := "error",
            message := "Error en deploy", metadata := "GitHub backup failed: " ++ "boom" }])
  ∧ ((updateApp "app001" "user1" code2 "d" envUpdateFail st0).1 =
        Except.error ("GitHub update failed: " ++ "boom")
     ∧ (((updateApp "app001" "user1" code2 "d" envUpdateFail st0).2).apps "app001").map
         AppRow.deployment_status = some "failed"
     ∧ ((updateApp "app001" "user1" code2 "d" envUpdateFail st0).2).logs = st0.logs ++
         [{ user_id := "user1", app_id := "app001", log_type := "error",
            message := "Error en actualización",
            metadata := "GitHub update failed: " ++ "boom" }])
  ∧ ((rollbackApp "app001" "user1" "v1.0" envRollFail st0).1 =
        Except.error ("Vercel deployment failed: " ++ "boom")
     ∧ (((rollbackApp "app001" "user1" "v1.0" envRollFail st0).2).apps "app001").map
         AppRow.deployment_status = some "failed"
     ∧ ((rollbackApp "app001" "user1" "v1.0" envRollFail st0).2).logs = st0.logs ++
         [{ user_id := "user1", app_id := "app001", log_type := "error",
            message := "Error en rollback",
            metadata := "Vercel deployment failed: " ++ "boom" }])
  ∧ ((suspendApp "app002" "user1" "r" { now := 1, deleteOk := true } st0).1 =
        Except.error "App not found"
     ∧ (suspendApp "app002" "user1" "r" { now := 1, deleteOk := true } st0).2 = st0)
  ∧ ((reactivateApp "app001" "user1" envReactFail stSusp).1 =
        Except.error ("Vercel deployment failed: " ++ "quota")
     ∧ ((reactivateApp "app001" "user1" envReactFail stSusp).2).apps "app001" =
         stSusp.apps "app001"
     ∧ ((reactivateApp "app001" "user1" envReactFail stSusp).2).logs = stSusp.logs) :=
  ⟨orchestrator_error_propagation.1 "app001" "user1" envDeployFail st0 appRow0 ver1 "boom"
     rfl rfl rfl,
   orchestrator_error_propagation.2.1 "app001" "user1" code2 "d" envUpdateFail st0 appRow0
     "boom" rfl rfl,
   orchestrator_error_propagation.2.2.1 "app001" "user1" "v1.0" envRollFail st0 appRow0
     "boom" rfl rfl,
   orchestrator_error_propagation.2.2.2.1 "app002" "user1" "r" { now := 1, deleteOk := true }
     st0 rfl,
   orchestrator_error_propagation.2.2.2.2 "app001" "user1" envReactFail stSusp appRowSusp
     ver1 "quota" rfl rfl rfl⟩

theorem getAppByUser_user_eq {st : St} {i u : String} {a : AppRow}
    (h : getAppByUser st i u = some a) : a.user_id = u := by
  unfold getAppByUser at h
  rcases hs : st.apps i with _ | b
  · rw [hs] at h
    cases h
  · rw [hs] at h
    by_cases hu : b.user_id = u
    · simp only [hu, if_true] at h
      injection h with hba
      rw [← hba]
      exact hu
    · simp [hu] at h

def isTeardownCall : ExtCall → Bool
  | ExtCall.teardown _ => true
  | _ => false

def teardownCount (tr : List ExtCall) : Nat :=
  (tr.filter isTeardownCall).length

theorem teardownCount_append_teardown (tr : List ExtCall) (d : String) :
    teardownCount (tr ++ [ExtCall.teardown d]) = teardownCount tr + 1 := by
  simp [teardownCount, isTeardownCall, List.filter_append]

/-- A successful suspension of a found app with a truthy hosting
deployment id: the result, the updated row, and the one teardown call. -/
theorem suspendApp_found (appId userId reason : String) (env : SuspendEnv) (st : St)
    (app : AppRow) (hg : getAppByUser st appId userId = some app)
    (htr : truthy app.vercel_deployment_id = true) :
    (suspendApp appId userId reason env st).1 = Except.ok { message := "App suspendida" }
    ∧ (suspendApp appId userId reason env st).2.apps appId = some
        { app with deployment_status := "suspended", suspended_at := some env.now, updated_at := env.now }
    ∧ (suspendApp appId userId reason env st).2.trace =
        st.trace ++ [ExtCall.teardown (app.vercel_deployment_id.getD "")] := by
  unfold suspendApp
  split
  case _ hgn =>
    rw [hg] at hgn
    cases hgn
  case _ app2 hg2 =>
    have happ : app2 = app := by
      have h3 := hg2.symm.trans hg
      injection h3
    subst happ
    simp only [htr, if_true]
    rw [deleteVercelDeployment_state]
    refine ⟨trivial, ?_, ?_⟩
    · rw [addLog_apps, updateAppRow_apps_self]
      have h4 : ({ st with trace := st.trace ++
          [ExtCall.teardown (app2.vercel_deployment_id.getD "")] } : St).apps appId =
          st.apps appId := rfl
      rw [h4, getAppByUser_apps_eq hg2]
      rfl
    · rw [addLog_trace, updateAppRow_trace]

/-- C8: suspending twice converges: both calls return success, the app is
suspended after each call, and the teardown is re-attempted on the
second call (two teardown calls in total) with its outcome — including
failure, since both delete outcomes are arbitrary — not affecting the
result. -/
theorem suspendApp_idempotent (appId userId r1 r2 : String) (e1 e2 : SuspendEnv) (st : St)
    (app : AppRow) (d : String) (hg : getAppByUser st appId userId = some app)
    (hd : app.vercel_deployment_id = some d) (hne : d ≠ "") :
    (suspendApp appId userId r1 e1 st).1 = Except.ok { message := "App suspendida" }
    ∧ (((suspendApp appId userId r1 e1 st).2).apps appId).map AppRow.deployment_status =
        some "suspended"
    ∧ (suspendApp appId userId r2 e2 (suspendApp appId userId r1 e1 st).2).1 =
        Except.ok { message := "App suspendida" }
    ∧ (((suspendApp appId userId r2 e2 (suspendApp appId userId r1 e1 st).2).2).apps
        appId).map AppRow.deployment_status = some "suspended"
    ∧ teardownCount ((suspendApp appId userId r2 e2
        (suspendApp appId userId r1 e1 st).2).2).trace = teardownCount st.trace + 2 := by
  have htr1 : truthy app.vercel_deployment_id = true := by
    rw [hd]
    simp [truthy, hne]
  obtain ⟨h1, h2, h3⟩ := suspendApp_found appId userId r1 e1 st app hg htr1
  have hg2 : getAppByUser (suspendApp appId userId r1 e1 st).2 appId userId = some
      { app with deployment_status := "suspended", suspended_at := some e1.now, updated_at := e1.now } := by
    unfold getAppByUser
    rw [h2]
    have hu : app.user_id = userId := getAppByUser_user_eq hg
    simp [hu]
  obtain ⟨h4, h5, h6⟩ := suspendApp_found appId userId r2 e2
    (suspendApp appId userId r1 e1 st).2 _ hg2 htr1
  refine ⟨h1, ?_, h4, ?_, ?_⟩
  · rw [h2]
    rfl
  · rw [h5]
    rfl
  · rw [h6, h3, teardownCount_append_teardown, teardownCount_append_teardown]

/-- A deployed app in a concrete state, for the closed instantiations. -/
def stDep : St :=
  { apps := fun i => if i = "app001" then some appRowDep else none,
    app_versions := [ver1], logs := [], repos := [], trace := [] }

/-- C8 witness: a concrete double suspension. -/
theorem suspendApp_idempotent_witness :
    (suspendApp "app001" "user1" "r1" { now := 200, deleteOk := true } stDep).1 =
      Except.ok { message := "App suspendida" }
    ∧ (((suspendApp "app001" "user1" "r1" { now := 200, deleteOk := true } stDep).2).apps
        "app001").map AppRow.deployment_status = some "suspended"
    ∧ (suspendApp "app001" "user1" "r2" { now := 300, deleteOk := false }
        (suspendApp "app001" "user1" "r1" { now := 200, deleteOk := true } stDep).2).1 =
      Except.ok { message := "App suspendida" }
    ∧ (((suspendApp "app001" "user1" "r2" { now := 300, deleteOk := false }
        (suspendApp "app001" "user1" "r1" { now := 200, deleteOk := true } stDep).2).2).apps
        "app001").map AppRow.deployment_status = some "suspended"
    ∧ teardownCount ((suspendApp "app001" "user1" "r2" { now := 300, deleteOk := false }
        (suspendApp "app001" "user1" "r1" { now := 200, deleteOk := true } stDep).2).2).trace =
      teardownCount stDep.trace + 2 :=
  suspendApp_idempotent "app001" "user1" "r1" "r2" { now := 200, deleteOk := true }
    { now := 300, deleteOk := false } stDep appRowDep "dep-1" rfl rfl (by decide)

theorem waitForDeploymentAux_bound (statuses : Nat → PollStatus) (u : String) :
    ∀ (n i : Nat), (waitForDeploymentAux statuses u i n).polls ≤ n
      ∧ (waitForDeploymentAux statuses u i n).sleptMs ≤ n * 5000 := by
  intro n
  induction n with
  | zero =>
    intro i
    exact ⟨Nat.le_refl 0, Nat.le_refl 0⟩
  | succ k ih =>
    intro i
    unfold waitForDeploymentAux
    rcases statuses i with _ | _ | _ | _ | _
    · exact ⟨Nat.succ_le_succ (Nat.zero_le k), by simp⟩
    all_goals
      refine ⟨Nat.succ_le_succ (ih (i + 1)).1, ?_⟩
      calc (waitForDeploymentAux statuses u (i + 1) k).sleptMs + 5000
          ≤ k * 5000 + 5000 := Nat.add_le_add_right (ih (i + 1)).2 5000
        _ = (k + 1) * 5000 := by ring

/-- C9: for every maxAttempts and every status sequence that never
reports a terminal state, the readiness poll performs at most
maxAttempts polls, sleeps at most maxAttempts fixed 5000 ms intervals,
and returns the candidate https url instead of raising. -/
theorem waitForDeployment_poll_bound (statuses : Nat → PollStatus) (url : String)
    (maxAttempts : Nat) (h : ∀ i, isTerminal (statuses i) = false) :
    (waitForDeployment statuses url maxAttempts).polls ≤ maxAttempts
  ∧ (waitForDeployment statuses url maxAttempts).sleptMs ≤ maxAttempts * 5000
  ∧ (waitForDeployment statuses url maxAttempts).url = "https://" ++ url :=
  ⟨(waitForDeploymentAux_bound statuses url maxAttempts 0).1,
   (waitForDeploymentAux_bound statuses url maxAttempts 0).2,
   waitForDeploymentAux_url statuses url maxAttempts 0⟩

/-- C9 witness: a stub that always reports a building state. -/
theorem waitForDeployment_poll_bound_witness :
    (waitForDeployment (fun _ => PollStatus.building) "app1.vercel.app" 5).polls ≤ 5
  ∧ (waitForDeployment (fun _ => PollStatus.building) "app1.vercel.app" 5).sleptMs ≤ 5 * 5000
  ∧ (waitForDeployment (fun _ => PollStatus.building) "app1.vercel.app" 5).url =
      "https://" ++ "app1.vercel.app" :=
  waitForDeployment_poll_bound (fun _ => PollStatus.building) "app1.vercel.app" 5
    (fun _ => rfl)

/-- C10: a successful suspension modifies only deployment_status,
suspended_at and updated_at on the App row; the url, hosting and archive
references and the current version are untouched. -/
theorem suspendApp_frame (appId userId reason : String) (env : SuspendEnv) (st : St)
    (app : AppRow) (hg : getAppByUser st appId userId = some app) :
    ∃ app2, ((suspendApp appId userId reason env st).2).apps appId = some app2
      ∧ app2.deployment_status = "suspended"
      ∧ app2.suspended_at = some env.now
      ∧ app2.updated_at = env.now
      ∧ app2.deploy_url = app.deploy_url
      ∧ app2.vercel_deployment_id = app.vercel_deployment_id
      ∧ app2.vercel_project_name = app.vercel_project_name
      ∧ app2.github_repo_name = app.github_repo_name
      ∧ app2.github_repo_url = app.github_repo_url
      ∧ app2.current_version = app.current_version
      ∧ app2.user_id = app.user_id
      ∧ app2.name = app.name
      ∧ app2.deployed = app.deployed := by
  unfold suspendApp
  split
  case _ hgn =>
    rw [hg] at hgn
    cases hgn
  case _ app2 hg2 =>
    have happ : app2 = app := by
      have h3 := hg2.symm.trans hg
      injection h3
    subst happ
    have hX : (if truthy app2.vercel_deployment_id then
        (deleteVercelDeployment (app2.vercel_deployment_id.getD "") env.deleteOk st).2
        else st).apps = st.apps := by
      cases ht : truthy app2.vercel_deployment_id
      · rfl
      · show St.apps (deleteVercelDeployment
            (app2.vercel_deployment_id.getD "") env.deleteOk st).2 = st.apps
        rw [deleteVercelDeployment_state]
    exact ⟨{ app2 with deployment_status := "suspended", suspended_at := some env.now, updated_at := env.now },
      by rw [addLog_apps, updateAppRow_apps_self, hX, getAppByUser_apps_eq hg2]; rfl,
      rfl, rfl, rfl, rfl, rfl, rfl, rfl, rfl, rfl, rfl, rfl, rfl⟩

/-- C10 witness: the concrete deployed app. -/
theorem suspendApp_frame_witness :
    ∃ app2, ((suspendApp "app001" "user1" "why" { now := 500, deleteOk := true } stDep).2).apps
        "app001" = some app2
      ∧ app2.deployment_status = "suspended"
      ∧ app2.suspended_at = some 500
      ∧ app2.updated_at = 500
      ∧ app2.deploy_url = appRowDep.deploy_url
      ∧ app2.vercel_deployment_id = appRowDep.vercel_deployment_id
      ∧ app2.vercel_project_name = appRowDep.vercel_project_name
      ∧ app2.github_repo_name = appRowDep.github_repo_name
      ∧ app2.github_repo_url = appRowDep.github_repo_url
      ∧ app2.current_version = appRowDep.current_version
      ∧ app2.user_id = appRowDep.user_id
      ∧ app2.name = appRowDep.name
      ∧ app2.deployed = appRowDep.deployed :=
  suspendApp_frame "app001" "user1" "why" { now := 500, deleteOk := true } stDep appRowDep rfl
